import Mathlib

/-!
Shallow embedding of the `ReviewsView` component (reviews panel of a
pull-request review UI) and proofs of its specified properties.

The embedding follows the source closely:
  * JavaScript values that may be `null`, `undefined`, a number or a string
    are modelled by `JSVal`.
  * A JavaScript `Map` is modelled as an association list, with `Map.get`
    as `List.lookup` (returning `none` for an absent key, the analogue of
    `undefined`).
  * Property access on `undefined` throws a `TypeError`; fallible code is
    therefore embedded in `Except JsError`.
  * React drops `null` children, so a render helper that can return `null`
    is embedded as an `Option`, and a mapped child list as a `filterMap`.
-/

namespace ReviewsView

/-- JavaScript runtime failure raised by property access on `undefined`. -/
inductive JsError where
  | typeError
deriving DecidableEq, Repr

/-- A JavaScript value that may be `null`, `undefined`, a number or a string. -/
inductive JSVal where
  | null
  | undef
  | num (n : Int)
  | str (s : String)
deriving DecidableEq, Repr

/-- Rendering of a `JSVal` as React text: numbers render as their decimal
string, strings as themselves, `null` and `undefined` render nothing. -/
def jsRenderedText : JSVal → String
  | .null => ""
  | .undef => ""
  | .num n => toString n
  | .str s => s

/-- Author reference carried by comments and reviews. -/
structure Author where
  login : String
  avatarUrl : String
deriving DecidableEq, Repr

/-- A review comment, as fetched from the read model.  `position` is the
nullable diff-relative position; `state` is `"PENDING"` for comments that are
part of an unsubmitted review. -/
structure Comment where
  id : Nat
  author : Author
  bodyHTML : String
  path : String
  position : Option Int
  isMinimized : Bool
  state : String
  createdAt : String
  url : String
deriving DecidableEq, Repr

/-- A review thread: identity, resolution flag and resolving user. -/
structure ReviewThread where
  id : String
  isResolved : Bool
  resolvedByLogin : String
deriving DecidableEq, Repr

/-- One element of the `commentThreads` prop: a thread together with its
ordered comment sequence (root comment first). -/
structure ThreadPair where
  thread : ReviewThread
  comments : List Comment
deriving DecidableEq, Repr

/-- Value of an entry of the `fileTranslations` map: `{newPosition: Number}`. -/
structure FileTranslationEntry where
  newPosition : Int
deriving DecidableEq, Repr

/-- Per-file translation table, matching the documented prop structure:
`rawPositions`, `diffToFilePosition`, optional `fileTranslations`, `digest`. -/
structure TranslationTable where
  rawPositions : List Int
  diffToFilePosition : List (Int × Int)
  fileTranslations : Option (List (Int × FileTranslationEntry))
  digest : String
deriving DecidableEq, Repr

/-- The `commentTranslations` prop when present: `Map<relativePath, TranslationTable>`. -/
def TranslationMap := List (String × TranslationTable)
deriving DecidableEq, Repr

/-- Result record of `getTranslatedPosition`: `{lineNumber, positionText}`.
Both components are JavaScript values (the non-sentinel branch assigns the
numeric `lineNumber` itself to `positionText`). -/
structure TranslatedPosition where
  lineNumber : JSVal
  positionText : JSVal
deriving DecidableEq, Repr

/-- Embedding of `getTranslatedPosition(rootComment)`.

`translations` is the `commentTranslations` prop (`none` models `null`);
`isCheckedOutPullRequest` embeds `checkoutOp.why() === checkoutStates.CURRENT`.
Comment positions are integers, so `parseInt(rootComment.position, 10)` is the
identity and is not represented separately.  A `Map.get` miss yields
`undefined`; accessing a property of `undefined` (the `.diffToFilePosition` of
a missing per-file table, or the `.newPosition` of a missing
`fileTranslations` entry) throws a `TypeError`.  A miss in
`diffToFilePosition` alone does not throw: `lineNumber` and `positionText`
are then both `undefined`. -/
def getTranslatedPosition (translations : Option TranslationMap)
    (isCheckedOutPullRequest : Bool) (rootComment : Comment) :
    Except JsError TranslatedPosition :=
  match translations with
  | none => .ok { lineNumber := .null, positionText := .str "" }
  | some tmap =>
    match rootComment.position with
    | none => .ok { lineNumber := .null, positionText := .str "outdated" }
    | some rawPosition =>
      match List.lookup rootComment.path tmap with
      | none => .error .typeError
      | some translationsForFile =>
        match List.lookup rawPosition translationsForFile.diffToFilePosition,
              translationsForFile.fileTranslations, isCheckedOutPullRequest with
        | some adjusted, some ft, true =>
          match List.lookup adjusted ft with
          | none => .error .typeError
          | some entry =>
            .ok { lineNumber := .num entry.newPosition,
                  positionText := .num entry.newPosition }
        | some adjusted, some _, false =>
          .ok { lineNumber := .num adjusted, positionText := .num adjusted }
        | some adjusted, none, _ =>
          .ok { lineNumber := .num adjusted, positionText := .num adjusted }
        | none, some _, true => .error .typeError
        | none, some _, false => .ok { lineNumber := .undef, positionText := .undef }
        | none, none, _ => .ok { lineNumber := .undef, positionText := .undef }

/-- A review summary, as fetched from the read model (`summaries` prop). -/
structure Review where
  id : Nat
  state : String
  bodyHTML : String
  author : Option Author
  submittedAt : String
deriving DecidableEq, Repr

/-- Per-state icon and copy used by `renderReviewSummary` (the `reviewTypes`
lookup; unknown states fall back to empty strings). -/
def reviewTypes (type : String) : String × String :=
  if type == "APPROVED" then ("icon-check", "approved these changes")
  else if type == "COMMENTED" then ("icon-comment", "commented")
  else if type == "CHANGES_REQUESTED" then ("icon-alert", "requested changes")
  else ("", "")

/-- Rendered `github-ReviewSummary` card. -/
structure ReviewSummaryNode where
  key : Nat
  icon : String
  copy : String
  authorLogin : String
  avatarUrl : String
  bodyHTML : String
  submittedAt : String
deriving DecidableEq, Repr

/-- The card `renderReviewSummary` builds for a review it does not suppress. -/
def mkReviewSummaryNode (review : Review) : ReviewSummaryNode :=
  let rt := reviewTypes review.state
  { key := review.id
    icon := rt.1
    copy := rt.2
    authorLogin := match review.author with | some a => a.login | none => ""
    avatarUrl := match review.author with | some a => a.avatarUrl | none => ""
    bodyHTML := review.bodyHTML
    submittedAt := review.submittedAt }

/-- Embedding of `renderReviewSummary`: returns `null` (here `none`) for a
`PENDING` review or a `COMMENTED` review with empty body, otherwise the card. -/
def renderReviewSummary (review : Review) : Option ReviewSummaryNode :=
  if review.state == "PENDING" || (review.state == "COMMENTED" && review.bodyHTML == "") then
    none
  else
    some (mkReviewSummaryNode review)

/-- The child list produced by `summaries.map(this.renderReviewSummary)`;
React drops the `null` entries, so the rendered list is the `filterMap`. -/
def summaryItems (summaries : List Review) : List ReviewSummaryNode :=
  summaries.filterMap renderReviewSummary

/-- Output of `renderReviewSummaries`: the empty state, or the summaries
section with its open flag and card list. -/
inductive SummariesRender where
  | emptyState
  | section (isOpen : Bool) (items : List ReviewSummaryNode)
deriving DecidableEq, Repr

/-- Embedding of `renderReviewSummaries`. -/
def renderReviewSummaries (summarySectionOpen : Bool) (summaries : List Review) :
    SummariesRender :=
  if summaries.length == 0 then .emptyState
  else .section summarySectionOpen (summaryItems summaries)

/-- Rendered comments section header data of `renderReviewCommentThreads`:
the resolved/total progress indicator (count text and `progress` element).
The per-thread children are embedded separately by `renderThread` and
`renderComment`. -/
structure CommentsSectionRender where
  isOpen : Bool
  resolvedThreads : Nat
  totalThreads : Nat
  countText : String
  progressValue : Nat
  progressMax : Nat
deriving DecidableEq, Repr

/-- The count from `commentThreads.filter(pair => pair.thread.isResolved).length`. -/
def resolvedThreadsCount (commentThreads : List ThreadPair) : Nat :=
  (commentThreads.filter (fun pair => pair.thread.isResolved)).length

/-- Embedding of `renderReviewCommentThreads`: `null` (here `none`) when there
are no threads, otherwise the section with the `Resolved r of t` indicator. -/
def renderReviewCommentThreads (commentSectionOpen : Bool)
    (commentThreads : List ThreadPair) : Option CommentsSectionRender :=
  if commentThreads.length == 0 then none
  else
    let resolvedThreads := resolvedThreadsCount commentThreads
    some { isOpen := commentSectionOpen
           resolvedThreads := resolvedThreads
           totalThreads := commentThreads.length
           countText := "Resolved " ++ toString resolvedThreads ++ " of "
                          ++ toString commentThreads.length
           progressValue := resolvedThreads
           progressMax := commentThreads.length }

/-- Visible (non-minimized) comment card data built by `renderComment`. -/
structure VisibleComment where
  id : Nat
  pendingClass : Bool
  pendingBadge : Bool
  authorLogin : String
  avatarUrl : String
  bodyHTML : String
  createdAt : String
  url : String
deriving DecidableEq, Repr

/-- Output of `renderComment`: the hidden placeholder for a minimized comment,
or the visible card. -/
inductive CommentRender where
  | hidden (id : Nat)
  | visible (v : VisibleComment)
deriving DecidableEq, Repr

/-- Embedding of `renderComment`.  A minimized comment renders the hidden
placeholder; otherwise the card carries the pending class and badge exactly
when `comment.state === 'PENDING'`. -/
def renderComment (comment : Comment) : CommentRender :=
  if comment.isMinimized then
    .hidden comment.id
  else
    .visible
      { id := comment.id
        pendingClass := comment.state == "PENDING"
        pendingBadge := comment.state == "PENDING"
        authorLogin := comment.author.login
        avatarUrl := comment.author.avatarUrl
        bodyHTML := comment.bodyHTML
        createdAt := comment.createdAt
        url := comment.url }

/-- Whether a rendered comment shows the `github-Review-pendingBadge`. -/
def hasPendingBadge : CommentRender → Bool
  | .hidden _ => false
  | .visible v => v.pendingBadge

/-- Rendered thread body data built by `renderThread`.  `isPosting` is
`postingToThreadID !== null` and feeds the reply-row disabled class, the
editor's `readOnly` and the Comment button's `disabled`.  `lastComment` is
`comments[comments.length - 1]` (`undefined`, here `none`, for an empty
sequence). -/
structure ThreadRender where
  commentNodes : List CommentRender
  replyDisabledClass : Bool
  replyReadOnly : Bool
  commentButtonDisabled : Bool
  lastComment : Option Comment
  resolvedText : Option String
deriving DecidableEq, Repr

/-- Embedding of `renderThread({thread, comments})`. -/
def renderThread (postingToThreadID : Option String) (thread : ReviewThread)
    (comments : List Comment) : ThreadRender :=
  let isPosting := postingToThreadID.isSome
  { commentNodes := comments.map renderComment
    replyDisabledClass := isPosting
    replyReadOnly := isPosting
    commentButtonDisabled := isPosting
    lastComment := comments.getLast?
    resolvedText :=
      if thread.isResolved then
        some ("This conversation was marked as resolved by @" ++ thread.resolvedByLogin)
      else none }

/-- Argument record of the `addSingleComment` action callback, in the order
`submitReply` passes them: body, thread id, last-comment id, path, position. -/
structure AddSingleCommentCall where
  body : String
  threadID : String
  inReplyToID : Nat
  path : String
  position : Option Int
deriving DecidableEq, Repr

/-- Outcome of `submitReply`: the `addSingleComment` call it issues, plus the
draft body captured at submission time (the `body` constant closed over by
the `didSubmitComment`/`didFailComment` callbacks). -/
structure ReplySubmission where
  call : AddSingleCommentCall
  capturedBody : String
deriving DecidableEq, Repr

/-- Embedding of `submitReply(replyHolder, thread, lastComment)`.
`replyHolderText` is the text of the editor held by the reply `RefHolder`
(`none` when the holder is empty, in which case `getOr('')` yields the empty
body).  `lastComment` is `undefined` (`none`) when the thread's comment
sequence is empty, and accessing `.id` on it throws. -/
def submitReply (replyHolderText : Option String) (thread : ReviewThread)
    (lastComment : Option Comment) : Except JsError ReplySubmission :=
  match lastComment with
  | none => .error .typeError
  | some last =>
    let body := replyHolderText.getD ""
    .ok { call := { body := body
                    threadID := thread.id
                    inReplyToID := last.id
                    path := last.path
                    position := last.position }
          capturedBody := body }

/-- Effect of the `didSubmitComment` callback on the reply editor held by the
holder at callback time: clears the text (bypassing read-only). -/
def didSubmitCommentEffect (holderTextAtCallback : Option String) : Option String :=
  holderTextAtCallback.map (fun _ => "")

/-- Effect of the `didFailComment` callback on the reply editor held by the
holder at callback time: restores the body captured at submission time
(bypassing read-only).  Its entire effect is this text update; it issues no
further `addSingleComment` call. -/
def didFailCommentEffect (submission : ReplySubmission)
    (holderTextAtCallback : Option String) : Option String :=
  holderTextAtCallback.map (fun _ => submission.capturedBody)

/-- Clicking the Comment button of a rendered thread: no action while the
button is disabled, otherwise `submitReply` on the thread's last comment. -/
def threadReplyClick (postingToThreadID : Option String)
    (replyHolderText : Option String) (thread : ReviewThread)
    (comments : List Comment) : Option (Except JsError ReplySubmission) :=
  let rendered := renderThread postingToThreadID thread comments
  if rendered.commentButtonDisabled then none
  else some (submitReply replyHolderText thread rendered.lastComment)

/-- Refresh-related component state: the `isRefreshing` busy flag and the
identifiers of the subscriptions held by the `CompositeDisposable` `subs`. -/
structure RefreshState where
  isRefreshing : Bool
  subs : List Nat
deriving DecidableEq, Repr

/-- Embedding of the `refresh` closure of `renderHeader`.  `newSub` is the
subscription the `refetch` call would return.  The second component records
whether `refetch` was invoked: a click while the busy flag is set returns
immediately without refetching; otherwise the flag is set and the new
subscription is added to `subs`. -/
def refresh (s : RefreshState) (newSub : Nat) : RefreshState × Bool :=
  if s.isRefreshing then (s, false)
  else ({ isRefreshing := true, subs := s.subs ++ [newSub] }, true)

/-- Embedding of the `refetch` completion callback: removes its subscription
from `subs` and clears the busy flag. -/
def refetchDone (s : RefreshState) (sub : Nat) : RefreshState :=
  { isRefreshing := false, subs := s.subs.erase sub }

/-- Embedding of `componentWillUnmount`: `subs.dispose()` disposes every
subscription currently held; the result lists the disposed subscriptions. -/
def componentWillUnmount (s : RefreshState) : List Nat :=
  s.subs

/-- Sample comment used to instantiate theorems at concrete inputs. -/
def mkComment (path : String) (position : Option Int) : Comment :=
  { id := 0
    author := { login := "user0", avatarUrl := "user0.jpg" }
    bodyHTML := "i have opinions."
    path := path
    position := position
    isMinimized := false
    state := "SUBMITTED"
    createdAt := "2019-01-01"
    url := "" }

/-- C1: for a comment whose `rawPosition` is non-null and present in its
file's `diffToFilePosition` table, the translator returns the mapped value;
when a `fileTranslations` table exists for that file and the pull request's
revision is currently checked out, it instead returns the second-stage
mapping of that adjusted value. -/
theorem getTranslatedPosition_mapped :
    (∀ (tmap : TranslationMap) (checkedOut : Bool) (c : Comment) (p adj : Int)
        (tf : TranslationTable),
      c.position = some p →
      List.lookup c.path tmap = some tf →
      List.lookup p tf.diffToFilePosition = some adj →
      (tf.fileTranslations = none ∨ checkedOut = false) →
      getTranslatedPosition (some tmap) checkedOut c =
        .ok { lineNumber := .num adj, positionText := .num adj })
  ∧ (∀ (tmap : TranslationMap) (c : Comment) (p adj : Int) (tf : TranslationTable)
        (ft : List (Int × FileTranslationEntry)) (entry : FileTranslationEntry),
      c.position = some p →
      List.lookup c.path tmap = some tf →
      List.lookup p tf.diffToFilePosition = some adj →
      tf.fileTranslations = some ft →
      List.lookup adj ft = some entry →
      getTranslatedPosition (some tmap) true c =
        .ok { lineNumber := .num entry.newPosition,
              positionText := .num entry.newPosition }) := by
  constructor
  · intro tmap checkedOut c p adj tf hp hpath hadj hside
    rcases hside with hft | hb
    · simp [getTranslatedPosition, hp, hpath, hadj, hft]
    · subst hb
      cases hft : tf.fileTranslations <;>
        simp [getTranslatedPosition, hp, hpath, hadj, hft]
  · intro tmap c p adj tf ft entry hp hpath hadj hft hentry
    simp [getTranslatedPosition, hp, hpath, hadj, hft, hentry]

/-- Witness for C1 at the spec scenario (path `dir/file0`, position 10,
table mapping 10 to 10, no local-edit table) and at a second-stage scenario
with a local-edit table while the revision is checked out. -/
theorem getTranslatedPosition_mapped_witness :
    getTranslatedPosition
        (some [("dir/file0",
          { rawPositions := [10], diffToFilePosition := [(10, 10)],
            fileTranslations := none, digest := "d0" })])
        false (mkComment "dir/file0" (some 10)) =
      .ok { lineNumber := .num 10, positionText := .num 10 }
  ∧ getTranslatedPosition
        (some [("file1",
          { rawPositions := [10], diffToFilePosition := [(10, 12)],
            fileTranslations := some [(12, { newPosition := 15 })], digest := "d1" })])
        true (mkComment "file1" (some 10)) =
      .ok { lineNumber := .num 15, positionText := .num 15 } :=
  ⟨getTranslatedPosition_mapped.1 _ false _ 10 10 _ rfl rfl rfl (Or.inl rfl),
   getTranslatedPosition_mapped.2 _ _ 10 12 _ _ _ rfl rfl rfl rfl rfl⟩

/-- C2: for a comment whose `rawPosition` is null, the translator returns a
null line number and the `outdated` sentinel, whatever the translation
tables contain. -/
theorem getTranslatedPosition_outdated (tmap : TranslationMap) (checkedOut : Bool)
    (c : Comment) (h : c.position = none) :
    getTranslatedPosition (some tmap) checkedOut c =
      .ok { lineNumber := .null, positionText := .str "outdated" } := by
  simp [getTranslatedPosition, h]

/-- Witness for C2: a null-position comment against a non-trivial table. -/
theorem getTranslatedPosition_outdated_witness :
    getTranslatedPosition
        (some [("dir/file0",
          { rawPositions := [10], diffToFilePosition := [(10, 10)],
            fileTranslations := none, digest := "d0" })])
        true (mkComment "dir/file0" none) =
      .ok { lineNumber := .null, positionText := .str "outdated" } :=
  getTranslatedPosition_outdated _ true _ rfl

/-- C9: whenever the translator succeeds with a numeric line number (the
non-sentinel case), the `positionText` component renders as exactly the
decimal text of that line number. -/
theorem positionText_renders_lineNumber (tmap : TranslationMap) (checkedOut : Bool)
    (c : Comment) (r : TranslatedPosition) (n : Int)
    (hok : getTranslatedPosition (some tmap) checkedOut c = .ok r)
    (hnum : r.lineNumber = .num n) :
    jsRenderedText r.positionText = toString n := by
  simp only [getTranslatedPosition] at hok
  repeat' split at hok
  all_goals simp_all [jsRenderedText]
  all_goals (subst hok; simp_all [jsRenderedText])

/-- Witness for C9 at the spec scenario: line 10 renders as the text 10. -/
theorem positionText_renders_lineNumber_witness :
    jsRenderedText
      (TranslatedPosition.positionText
        { lineNumber := .num 10, positionText := .num 10 }) = toString (10 : Int) :=
  positionText_renders_lineNumber
    [("dir/file0",
      { rawPositions := [10], diffToFilePosition := [(10, 10)],
        fileTranslations := none, digest := "d0" })]
    false (mkComment "dir/file0" (some 10)) _ 10 rfl rfl

/-- C10: the translator's caller contract.  With a non-null position, a path
absent from the translation map makes it throw; a position absent from
`diffToFilePosition` while a `fileTranslations` table exists and the revision
is checked out also makes it throw (neither case falls back to the
`outdated` sentinel); and when the path is present and every looked-up key
is mapped, no error is reachable. -/
theorem getTranslatedPosition_caller_contract :
    (∀ (tmap : TranslationMap) (checkedOut : Bool) (c : Comment) (p : Int),
      c.position = some p →
      List.lookup c.path tmap = none →
      getTranslatedPosition (some tmap) checkedOut c = .error .typeError)
  ∧ (∀ (tmap : TranslationMap) (c : Comment) (p : Int) (tf : TranslationTable)
        (ft : List (Int × FileTranslationEntry)),
      c.position = some p →
      List.lookup c.path tmap = some tf →
      List.lookup p tf.diffToFilePosition = none →
      tf.fileTranslations = some ft →
      getTranslatedPosition (some tmap) true c = .error .typeError)
  ∧ (∀ (tmap : TranslationMap) (checkedOut : Bool) (c : Comment) (p adj : Int)
        (tf : TranslationTable),
      c.position = some p →
      List.lookup c.path tmap = some tf →
      List.lookup p tf.diffToFilePosition = some adj →
      (∀ ft, tf.fileTranslations = some ft → checkedOut = true →
        ∃ entry, List.lookup adj ft = some entry) →
      ∃ r, getTranslatedPosition (some tmap) checkedOut c = .ok r) := by
  refine ⟨?_, ?_, ?_⟩
  · intro tmap checkedOut c p hp hpath
    simp [getTranslatedPosition, hp, hpath]
  · intro tmap c p tf ft hp hpath hmiss hft
    simp [getTranslatedPosition, hp, hpath, hmiss, hft]
  · intro tmap checkedOut c p adj tf hp hpath hadj hsecond
    cases hft : tf.fileTranslations with
    | none =>
      exact ⟨{ lineNumber := .num adj, positionText := .num adj },
        by simp [getTranslatedPosition, hp, hpath, hadj, hft]⟩
    | some ft =>
      cases checkedOut with
      | false =>
        exact ⟨{ lineNumber := .num adj, positionText := .num adj },
          by simp [getTranslatedPosition, hp, hpath, hadj, hft]⟩
      | true =>
        obtain ⟨entry, hentry⟩ := hsecond ft hft rfl
        exact ⟨{ lineNumber := .num entry.newPosition, positionText := .num entry.newPosition },
          by simp [getTranslatedPosition, hp, hpath, hadj, hft, hentry]⟩

/-- Witness for C10: a missing path entry throws, a missing diff position
with a local-edit table while checked out throws, and a fully mapped lookup
succeeds. -/
theorem getTranslatedPosition_caller_contract_witness :
    getTranslatedPosition (some []) false (mkComment "f" (some 5)) = .error .typeError
  ∧ getTranslatedPosition
        (some [("f",
          { rawPositions := [], diffToFilePosition := [],
            fileTranslations := some [], digest := "" })])
        true (mkComment "f" (some 5)) = .error .typeError
  ∧ ∃ r, getTranslatedPosition
        (some [("f",
          { rawPositions := [5], diffToFilePosition := [(5, 7)],
            fileTranslations := none, digest := "" })])
        false (mkComment "f" (some 5)) = .ok r :=
  ⟨getTranslatedPosition_caller_contract.1 _ false _ 5 rfl rfl,
   getTranslatedPosition_caller_contract.2.1 _ _ 5 _ [] rfl rfl rfl rfl,
   getTranslatedPosition_caller_contract.2.2 _ false _ 5 7 _ rfl rfl rfl
     (fun ft hft _ => nomatch hft)⟩

/-- A `filterMap` whose function suppresses exactly the elements satisfying
`p` and rebuilds the rest with `f` is a `filter` followed by a `map`. -/
theorem filterMap_if_eq_filter_map {α β : Type} (f : α → β) (p : α → Bool) (l : List α) :
    (l.filterMap fun a => if p a then none else some (f a)) =
      (l.filter fun a => !p a).map f := by
  induction l with
  | nil => rfl
  | cons a l ih =>
    by_cases h : p a = true
    · simp [h, ih]
    · simp [h, ih]

/-- C3: the rendered summary list is, in input order, exactly the rendering
of those summaries that are neither `PENDING` nor `COMMENTED` with an empty
body; each such summary appears exactly once and the suppressed ones never
appear.  For a non-empty input the summaries section shows exactly this
list. -/
theorem renderReviewSummaries_filters :
    (∀ ss : List Review,
      summaryItems ss =
        (ss.filter (fun r =>
          !(r.state == "PENDING" || (r.state == "COMMENTED" && r.bodyHTML == "")))).map
          mkReviewSummaryNode)
  ∧ (∀ (op : Bool) (r : Review) (rs : List Review),
      renderReviewSummaries op (r :: rs) = .section op (summaryItems (r :: rs))) := by
  constructor
  · intro ss
    exact filterMap_if_eq_filter_map mkReviewSummaryNode
      (fun r : Review => r.state == "PENDING" || (r.state == "COMMENTED" && r.bodyHTML == "")) ss
  · intro op r rs
    simp [renderReviewSummaries]

/-- C4: the comments-section progress indicator counts exactly the pairs
whose thread is resolved, its total is the number of pairs, resolved never
exceeds total (and is a natural number, hence at least 0); three pairs with
exactly one resolved display the text `Resolved 1 of 3`. -/
theorem renderReviewCommentThreads_resolved_count :
    (∀ (op : Bool) (p : ThreadPair) (ps : List ThreadPair) (sec : CommentsSectionRender),
      renderReviewCommentThreads op (p :: ps) = some sec →
      sec.resolvedThreads = resolvedThreadsCount (p :: ps)
      ∧ sec.totalThreads = (p :: ps).length
      ∧ sec.resolvedThreads ≤ sec.totalThreads)
  ∧ (∀ (op : Bool) (p1 p2 p3 : ThreadPair) (sec : CommentsSectionRender),
      resolvedThreadsCount [p1, p2, p3] = 1 →
      renderReviewCommentThreads op [p1, p2, p3] = some sec →
      sec.countText = "Resolved 1 of 3") := by
  constructor
  · intro op p ps sec h
    simp only [renderReviewCommentThreads, List.length_cons] at h
    simp at h
    subst h
    refine ⟨rfl, rfl, ?_⟩
    exact List.length_filter_le _ _
  · intro op p1 p2 p3 sec hres h
    simp only [renderReviewCommentThreads] at h
    simp [hres] at h
    subst h
    rfl

/-- Sample unresolved thread/comment pair. -/
def samplePair0 : ThreadPair :=
  { thread := { id := "t0", isResolved := false, resolvedByLogin := "" }
    comments := [mkComment "dir/file0" (some 10)] }

/-- Sample resolved thread/comment pair. -/
def samplePair1 : ThreadPair :=
  { thread := { id := "t1", isResolved := true, resolvedByLogin := "user1" }
    comments := [mkComment "file1" (some 20)] }

/-- Sample unresolved thread/comment pair with no comments. -/
def samplePair2 : ThreadPair :=
  { thread := { id := "t2", isResolved := false, resolvedByLogin := "" }
    comments := [] }

/-- Sample thread/comment pairs: three threads, exactly one resolved. -/
def samplePairs : List ThreadPair :=
  [samplePair0, samplePair1, samplePair2]

/-- The comments section rendered for `samplePairs`. -/
def sampleSection : CommentsSectionRender :=
  { isOpen := true, resolvedThreads := 1, totalThreads := 3,
    countText := "Resolved 1 of 3", progressValue := 1, progressMax := 3 }

/-- Witness for C4 at `samplePairs` (3 pairs, one resolved). -/
theorem renderReviewCommentThreads_resolved_count_witness :
    (sampleSection.resolvedThreads = resolvedThreadsCount samplePairs
      ∧ sampleSection.totalThreads = samplePairs.length
      ∧ sampleSection.resolvedThreads ≤ sampleSection.totalThreads)
  ∧ sampleSection.countText = "Resolved 1 of 3" :=
  ⟨renderReviewCommentThreads_resolved_count.1 true samplePair0 [samplePair1, samplePair2]
      sampleSection rfl,
   renderReviewCommentThreads_resolved_count.2 true samplePair0 samplePair1 samplePair2
      sampleSection rfl rfl⟩

/-- C5: clicking Comment on a thread whose comment sequence is non-empty
(while no posting is in flight) issues the `addSingleComment` call with the
draft body, the thread's id, and the id, path and position of the final
element of the thread's comment sequence. -/
theorem submitReply_targets_last_comment :
    ∀ (holderText : Option String) (thread : ReviewThread) (comments : List Comment)
      (h : comments ≠ []),
      threadReplyClick none holderText thread comments =
        some (.ok
          { call := { body := holderText.getD ""
                      threadID := thread.id
                      inReplyToID := (comments.getLast h).id
                      path := (comments.getLast h).path
                      position := (comments.getLast h).position }
            capturedBody := holderText.getD "" }) := by
  intro holderText thread comments h
  simp [threadReplyClick, renderThread, submitReply, List.getLast?_eq_getLast _ h]

/-- Witness for C5: a two-comment thread replies relative to the second
comment, passing its id, path and position together with the draft body and
the thread id. -/
theorem submitReply_targets_last_comment_witness :
    threadReplyClick none (some "i agree.")
        { id := "abcd", isResolved := false, resolvedByLogin := "" }
        [mkComment "dir/file0" (some 10),
         { mkComment "file0" (some 10) with id := 1 }] =
      some (.ok
        { call := { body := "i agree.", threadID := "abcd", inReplyToID := 1,
                    path := "file0", position := some 10 }
          capturedBody := "i agree." }) :=
  submitReply_targets_last_comment (some "i agree.") _ _ (by simp)

/-- C6: when a reply submission fails, the failure callback sets the reply
editor's text back to the draft body captured at submission time, so the
user's input is not lost; the modelled effect of the failure callback is
this text restore only, with no further submission. -/
theorem didFailComment_restores_draft :
    ∀ (holderText : Option String) (thread : ReviewThread) (last : Comment)
      (sub : ReplySubmission) (editorTextAtCallback : String),
      submitReply holderText thread (some last) = .ok sub →
      didFailCommentEffect sub (some editorTextAtCallback) =
        some (holderText.getD "") := by
  intro holderText thread last sub editorText h
  simp only [submitReply, Except.ok.injEq] at h
  subst h
  rfl

/-- Witness for C6: a failed submission of the draft `draft text` restores
`draft text` in the editor, even though the editor was cleared meanwhile. -/
theorem didFailComment_restores_draft_witness :
    didFailCommentEffect
        { call := { body := "draft text", threadID := "abcd", inReplyToID := 0,
                    path := "dir/file0", position := some 10 }
          capturedBody := "draft text" }
        (some "") = some ((some "draft text").getD "") :=
  didFailComment_restores_draft (some "draft text")
    { id := "abcd", isResolved := false, resolvedByLogin := "" }
    (mkComment "dir/file0" (some 10)) _ "" rfl

/-- C7 counterexample: a comment that is both minimized and in `PENDING`
state renders as the hidden placeholder, with no pending badge — so it is
not true that every comment in pending state is flagged with the badge. -/
theorem pending_minimized_comment_lacks_badge :
    ({ id := 3, author := { login := "user1", avatarUrl := "" }, bodyHTML := "shhhh",
       path := "file1", position := some 20, isMinimized := true, state := "PENDING",
       createdAt := "2019-01-01", url := "" } : Comment).state = "PENDING"
  ∧ hasPendingBadge (renderComment
      { id := 3, author := { login := "user1", avatarUrl := "" }, bodyHTML := "shhhh",
        path := "file1", position := some 20, isMinimized := true, state := "PENDING",
        createdAt := "2019-01-01", url := "" }) = false :=
  ⟨rfl, rfl⟩

/-- C7 (amended): whenever the system-wide posting guard is set to some
thread id, every rendered thread's reply editor is read-only, its Comment
button is disabled and its reply row carries the disabled class; and every
non-minimized comment in `PENDING` state is flagged with the pending
badge. -/
theorem posting_guard_disables_replies :
    (∀ (tid : String) (thread : ReviewThread) (comments : List Comment),
      (renderThread (some tid) thread comments).replyReadOnly = true
      ∧ (renderThread (some tid) thread comments).commentButtonDisabled = true
      ∧ (renderThread (some tid) thread comments).replyDisabledClass = true)
  ∧ (∀ c : Comment, c.isMinimized = false → c.state = "PENDING" →
      hasPendingBadge (renderComment c) = true) := by
  constructor
  · intro tid thread comments
    exact ⟨rfl, rfl, rfl⟩
  · intro c hmin hstate
    simp [renderComment, hasPendingBadge, hmin, hstate]

/-- Witness for C7 (amended): with the posting guard set to thread `abcd`,
another thread's reply controls are disabled too, and a non-minimized
pending comment shows the badge. -/
theorem posting_guard_disables_replies_witness :
    ((renderThread (some "abcd")
        { id := "t1", isResolved := false, resolvedByLogin := "" }
        [mkComment "file1" (some 20)]).replyReadOnly = true
      ∧ (renderThread (some "abcd")
          { id := "t1", isResolved := false, resolvedByLogin := "" }
          [mkComment "file1" (some 20)]).commentButtonDisabled = true
      ∧ (renderThread (some "abcd")
          { id := "t1", isResolved := false, resolvedByLogin := "" }
          [mkComment "file1" (some 20)]).replyDisabledClass = true)
  ∧ hasPendingBadge
      (renderComment { mkComment "file1" (some 20) with state := "PENDING" }) = true :=
  ⟨posting_guard_disables_replies.1 "abcd" _ _,
   posting_guard_disables_replies.2 { mkComment "file1" (some 20) with state := "PENDING" }
     rfl rfl⟩

/-- C8: a refresh click while the busy flag is set leaves the state unchanged
and does not invoke `refetch`; once a refresh has started and has not
completed, a further click never refetches; unmounting disposes every held
subscription, in particular the subscription acquired by an uncompleted
refresh. -/
theorem refresh_guard_and_disposal :
    (∀ (s : RefreshState) (n : Nat), s.isRefreshing = true → refresh s n = (s, false))
  ∧ (∀ (s : RefreshState) (n m : Nat), s.isRefreshing = false →
      (refresh (refresh s n).1 m).2 = false)
  ∧ (∀ (s : RefreshState) (sub : Nat), sub ∈ s.subs → sub ∈ componentWillUnmount s)
  ∧ (∀ (s : RefreshState) (n : Nat), s.isRefreshing = false →
      n ∈ componentWillUnmount (refresh s n).1) := by
  refine ⟨?_, ?_, ?_, ?_⟩
  · intro s n h
    simp [refresh, h]
  · intro s n m h
    simp [refresh, h]
  · intro s sub h
    simpa [componentWillUnmount] using h
  · intro s n h
    simp [refresh, componentWillUnmount, h]

/-- Witness for C8: a click on a busy state is a no-op, a second click after
an uncompleted refresh does not refetch, and the in-flight subscription is
among those disposed on unmount. -/
theorem refresh_guard_and_disposal_witness :
    refresh { isRefreshing := true, subs := [7] } 8 =
      ({ isRefreshing := true, subs := [7] }, false)
  ∧ (refresh (refresh { isRefreshing := false, subs := [] } 1).1 2).2 = false
  ∧ 7 ∈ componentWillUnmount { isRefreshing := true, subs := [7] }
  ∧ 1 ∈ componentWillUnmount (refresh { isRefreshing := false, subs := [] } 1).1 :=
  ⟨refresh_guard_and_disposal.1 _ 8 rfl,
   refresh_guard_and_disposal.2.1 _ 1 2 rfl,
   refresh_guard_and_disposal.2.2.1 _ 7 (by decide),
   refresh_guard_and_disposal.2.2.2 _ 1 rfl⟩

end ReviewsView
